import Mathlib

/-
Verification of the PDF report-assembly pipeline (pdf.py).

The embedding models the pure control flow and arithmetic of the pipeline.
External effects (filesystem, the reportlab canvas, PyPDF2 readers/writers,
external conversion tools) are represented by explicit environment records
whose fields are oracles describing the outcome of each external call, so
every source-level branch (success, skip, raised exception) is represented.
Machine paths are strings; PDF files are lists of pages; a page is a list of
content layers (overlay-merging appends the overlay layer on top, keeping
the original layers beneath).
-/

/-- An exception escaping a Python call, as the pipeline can observe it. -/
inductive PyErr where
  | typeError : PyErr
  | convError : String → PyErr
  | readError : String → PyErr
  | writeError : String → PyErr
  deriving DecidableEq, Repr

/-- Model of pathlib joining: `Path(a) / b`. -/
def pathJoin (a b : String) : String := a ++ "/" ++ b

/-- Split a character list at every occurrence of the separator. -/
def splitOnChar (c : Char) : List Char → List (List Char)
  | [] => [[]]
  | x :: xs =>
    if x == c then [] :: splitOnChar c xs
    else
      match splitOnChar c xs with
      | [] => [[x]]
      | y :: ys => (x :: y) :: ys

/-- Model of `Path(s).name`: the final path component. -/
def pathName (s : String) : String :=
  String.mk ((splitOnChar '/' s.toList).getLastD [])

/-- ASCII lowercasing, the model of `str.lower()` on extensions. -/
def lowerString (s : String) : String :=
  String.mk (s.toList.map Char.toLower)

/-- Index of the last dot in a character list (Python `str.rfind`). -/
def lastDotIdx (cs : List Char) : Option Nat :=
  match cs.reverse.findIdx? (fun c => c == '.') with
  | none => none
  | some j => some (cs.length - 1 - j)

/-- Model of `Path(s).suffix`: the final component's extension including the
dot, empty when the last dot is at position 0 or at the very end. -/
def pathSuffix (s : String) : String :=
  let cs := (pathName s).toList
  match lastDotIdx cs with
  | none => ""
  | some i => if 0 < i ∧ i < cs.length - 1 then String.mk (cs.drop i) else ""

/-- Model of `Path(s).stem`: the final component with its suffix removed. -/
def pathStem (s : String) : String :=
  String.mk ((pathName s).toList.take
    ((pathName s).toList.length - (pathSuffix s).length))

/-- One content layer of a rendered PDF page. -/
structure PdfPage where
  layers : List String
  deriving DecidableEq, Repr

/-- The overlay page produced by the canvas in inject_pdf_title: a single
bold centred title drawn near the top margin. -/
def titleOverlay (title : String) : PdfPage :=
  ⟨["Helvetica-Bold 14 centred near top: " ++ title]⟩

/-- Model of `PageObject.merge_page`: the overlay's content is composed on
top of the base page, the base page's own content staying beneath. -/
def mergePage (base overlay : PdfPage) : PdfPage :=
  ⟨base.layers ++ overlay.layers⟩

/-- Outcome oracles for the external calls made by inject_pdf_title:
whether `PdfReader` raises on the input file and whether the final
`open`/`writer.write` raises. -/
structure InjectEnv where
  readErr : Option PyErr
  writeErr : Option PyErr

/-- Embedding of `inject_pdf_title` (pdf.py lines 14-45).  The input file's
pages are `pdf`; the result is the returned path (always the input path,
as in the source, where the titled file overwrites the original) together
with the content of the file at that path afterwards.  Every exception in
the body is caught: reading failure, the `reader.pages[0]` IndexError on an
empty PDF, and writing failure each leave the file unchanged. -/
def inject_pdf_title (env : InjectEnv) (pdfPath : String) (pdf : List PdfPage)
    (title : String) : String × List PdfPage :=
  match env.readErr with
  | some _ => (pdfPath, pdf)
  | none =>
    match pdf with
    | [] => (pdfPath, pdf)
    | first :: rest =>
      match env.writeErr with
      | some _ => (pdfPath, pdf)
      | none => (pdfPath, mergePage first (titleOverlay title) :: rest)

/-- The four converter functions registered in PDFConverterRegistry. -/
inductive ConverterKind where
  | docx : ConverterKind
  | copyPdf : ConverterKind
  | txt : ConverterKind
  | image : ConverterKind
  deriving DecidableEq, Repr

/-- Embedding of the PDFConverterRegistry dictionary (pdf.py lines 133-142). -/
def PDFConverterRegistry : List (String × ConverterKind) :=
  [(".docx", .docx), (".pdf", .copyPdf), (".txt", .txt), (".jpg", .image),
   (".jpeg", .image), (".png", .image), (".tif", .image), (".tiff", .image)]

/-- Dictionary lookup `PDFConverterRegistry.get(ext)`. -/
def registryGet (ext : String) : Option ConverterKind :=
  (PDFConverterRegistry.find? (fun p => p.1 == ext)).map (fun p => p.2)

/-- One element of the `ordered_files` array of the input artifact; the
pipeline only reads the "filnamn" key, which `dict.get` returns as `None`
when absent. -/
structure SourceFileEntry where
  filnamn : Option String
  typ : Option String
  sammanfattning : Option String
  deriving DecidableEq, Repr

/-- The metadata record appended to `pdf_infos` for each converted file. -/
structure ConvertedDocument where
  title : String
  path : String
  pages : Nat
  deriving DecidableEq, Repr

/-- Outcome oracles for the external calls made while converting one file:
existence of the source, success of the docx converter (which catches its
own exceptions and returns None when both the primary tool and the
LibreOffice fallback fail), the exception (if any) raised inside the txt,
image and pdf-copy converters, existence of the produced output, and the
result of reading the produced PDF's page count. -/
structure ConvEnv where
  srcExists : String → Bool
  docxOk : String → Bool
  txtErr : String → Option PyErr
  imageErr : String → Option PyErr
  copyErr : String → Option PyErr
  outExists : String → Bool
  pageCountRes : String → Except PyErr Nat

/-- The converter dispatch of pdf.py lines 164-169: which output path (if
any) the selected converter produces, or the exception it raises.
convert_docx_to_pdf returns None when both tools fail (its exceptions are
caught internally); txt_to_pdf, image_to_pdf and copy_pdf let exceptions
escape.  Output paths follow the source: `stem + ".pdf"` inside the
converted directory, except copy_pdf which keeps the full name. -/
def converterOutput (env : ConvEnv) (conv : ConverterKind)
    (convertedDir srcPath : String) : Except PyErr (Option String) :=
  match conv with
  | .docx =>
    .ok (if env.docxOk srcPath
      then some (pathJoin convertedDir (pathStem srcPath ++ ".pdf")) else none)
  | .txt =>
    match env.txtErr srcPath with
    | some e => .error e
    | none => .ok (some (pathJoin convertedDir (pathStem srcPath ++ ".pdf")))
  | .image =>
    match env.imageErr srcPath with
    | some e => .error e
    | none => .ok (some (pathJoin convertedDir (pathStem srcPath ++ ".pdf")))
  | .copyPdf =>
    match env.copyErr srcPath with
    | some e => .error e
    | none => .ok (some (pathJoin convertedDir (pathName srcPath)))

/-- The body of one iteration of the loop of convert_all_to_pdfs (pdf.py
lines 151-184): `.ok none` is a skip (`continue`), `.error` is an uncaught
exception escaping the loop, `.ok (some d)` appends `d` to pdf_infos.
When "filnamn" is absent, `Path(source_folder) / None` raises TypeError.
inject_pdf_title never raises and returns the same path, so only the
subsequent page-count read can fail after conversion. -/
def processEntry (env : ConvEnv) (sourceFolder : String) (e : SourceFileEntry) :
    Except PyErr (Option ConvertedDocument) :=
  match e.filnamn with
  | none => .error .typeError
  | some filename =>
    let srcPath := pathJoin sourceFolder filename
    if env.srcExists srcPath = false then .ok none
    else
      match registryGet (lowerString (pathSuffix srcPath)) with
      | none => .ok none
      | some conv =>
        match converterOutput env conv (pathJoin sourceFolder "converted") srcPath with
        | .error err => .error err
        | .ok none => .ok none
        | .ok (some outputPdf) =>
          if env.outExists outputPdf = false then .ok none
          else
            match env.pageCountRes outputPdf with
            | .error err => .error err
            | .ok n => .ok (some ⟨pathName srcPath, outputPdf, n⟩)

/-- Embedding of `convert_all_to_pdfs` (pdf.py lines 145-186): fold the
per-entry step over the ordered file list, collecting the successful
conversions in order; an uncaught exception aborts the whole loop. -/
def convert_all_to_pdfs (env : ConvEnv) (sourceFolder : String) :
    List SourceFileEntry → Except PyErr (List ConvertedDocument)
  | [] => .ok []
  | e :: rest =>
    match processEntry env sourceFolder e with
    | .error err => .error err
    | .ok none => convert_all_to_pdfs env sourceFolder rest
    | .ok (some d) =>
      match convert_all_to_pdfs env sourceFolder rest with
      | .error err => .error err
      | .ok ds => .ok (d :: ds)

/-- The per-entry result viewed as an Option (none for skips and errors). -/
def entryResult (env : ConvEnv) (sourceFolder : String)
    (e : SourceFileEntry) : Option ConvertedDocument :=
  match processEntry env sourceFolder e with
  | .ok o => o
  | .error _ => none

/-- A TOC entry: a label and the absolute start page printed next to it. -/
structure TOCEntry where
  label : String
  startPage : Nat
  deriving DecidableEq, Repr

/-- The dot fill of build_toc_pdf: `"." * (80 - len(text))` (Python string
repetition by a negative count yields the empty string, matching Nat
truncated subtraction). -/
def tocDots (text : String) : String :=
  String.mk (List.replicate (80 - text.length) '.')

/-- One rendered TOC line: `f"{text} {dots} {page_counter}"`. -/
def tocLine (text : String) (page : Nat) : String :=
  text ++ " " ++ tocDots text ++ " " ++ toString page

/-- The document loop of build_toc_pdf (pdf.py lines 205-212): emit one
entry per document at the current counter, then advance the counter by the
document's page count; also return the final counter value. -/
def tocLoop : Nat → List ConvertedDocument → List TOCEntry × Nat
  | counter, [] => ([], counter)
  | counter, info :: rest =>
    let r := tocLoop (counter + info.pages) rest
    (⟨info.title, counter⟩ :: r.1, r.2)

/-- Embedding of `build_toc_pdf` (pdf.py lines 190-221) at the level of the
emitted TOC entries: the page counter starts at 2 (the TOC itself is page
1), one entry per document, and a final "Sammanfattning" entry at the final
counter value. -/
def build_toc_pdf (pdf_infos : List ConvertedDocument) : List TOCEntry :=
  (tocLoop 2 pdf_infos).1 ++ [⟨"Sammanfattning", (tocLoop 2 pdf_infos).2⟩]

/-- The TOC lines exactly as formatted into the story paragraphs. -/
def tocStory (pdf_infos : List ConvertedDocument) : List String :=
  (build_toc_pdf pdf_infos).map (fun e => tocLine e.label e.startPage)

/-- Outcome oracles for merging: what `PdfMerger.append` reads at each path
(or the exception it raises), and whether the final write raises. -/
structure MergeEnv where
  readPdf : String → Except PyErr (List PdfPage)
  writeErr : Option PyErr

/-- Sequential `merger.append` over a list of paths, concatenating pages;
the first exception escapes. -/
def mergeAppendAll (env : MergeEnv) : List String → Except PyErr (List PdfPage)
  | [] => .ok []
  | p :: ps =>
    match env.readPdf p with
    | .error e => .error e
    | .ok pages =>
      match mergeAppendAll env ps with
      | .error e => .error e
      | .ok rest => .ok (pages ++ rest)

/-- Embedding of `merge_pdfs_with_toc` (pdf.py lines 238-246): append the
TOC, then every converted document in order, then the summary, then write;
nothing is caught, so any failure escapes to the caller. -/
def merge_pdfs_with_toc (env : MergeEnv) (tocPdf : String)
    (pdf_infos : List ConvertedDocument) (summaryPdf : String) :
    Except PyErr (List PdfPage) :=
  match mergeAppendAll env (tocPdf :: (pdf_infos.map (fun i => i.path) ++ [summaryPdf])) with
  | .error e => .error e
  | .ok pages =>
    match env.writeErr with
    | some e => .error e
    | none => .ok pages

/-- reportlab's A4 page size in points, exactly: (210mm, 297mm) at 72
points per inch, i.e. (210*72/25.4, 297*72/25.4). -/
def A4w : ℚ := 75600 / 127

/-- A4 page height in points, exactly. -/
def A4h : ℚ := 106920 / 127

/-- The geometry computed by image_to_pdf. -/
structure ImagePlacement where
  x : ℚ
  y : ℚ
  w : ℚ
  h : ℚ
  scale : ℚ

/-- Embedding of the placement arithmetic of `image_to_pdf` (pdf.py lines
101-122) for an image of intrinsic size (iw, ih): the scale is
`min(max_width / iw, max_height / ih, 1)` with `max_width = width - 100`
and `max_height = height - title_height - 100` (title_height = 50); the
image is drawn at `((width - img_w) / 2, (height - img_h) / 2 - 20)`. -/
def image_to_pdf_placement (iw ih : ℚ) : ImagePlacement :=
  let width := A4w
  let height := A4h
  let title_height : ℚ := 50
  let max_width := width - 100
  let max_height := height - title_height - 100
  let scale := min (min (max_width / iw) (max_height / ih)) 1
  let img_w := iw * scale
  let img_h := ih * scale
  ⟨(width - img_w) / 2, (height - img_h) / 2 - 20, img_w, img_h, scale⟩

/-- The filesystem as a map from path to file bytes. -/
def FileSys : Type := String → Option (List Nat)

/-- Embedding of `copy_pdf` (pdf.py lines 125-129): `shutil.copy2` of the
source into `output_folder / Path(pdf_path).name`, raising when the source
cannot be read, and returning the destination path.  The result carries
the updated filesystem. -/
def copy_pdf (fs : FileSys) (pdfPath outputFolder : String) :
    Except PyErr (String × FileSys) :=
  match fs pdfPath with
  | none => .error (.readError pdfPath)
  | some bytes =>
    let dest := pathJoin outputFolder (pathName pdfPath)
    .ok (dest, fun p => if p = dest then some bytes else fs p)

/- ### Lemmas about the TOC loop -/

lemma tocLoop_snd (l : List ConvertedDocument) :
    ∀ c, (tocLoop c l).2 = c + (l.map (fun x => x.pages)).sum := by
  induction l with
  | nil => intro c; simp [tocLoop]
  | cons a t ih => intro c; simp [tocLoop, ih, Nat.add_assoc]

lemma tocLoop_fst_length (l : List ConvertedDocument) :
    ∀ c, ((tocLoop c l).1).length = l.length := by
  induction l with
  | nil => intro c; simp [tocLoop]
  | cons a t ih => intro c; simp [tocLoop, ih]

lemma tocLoop_fst_get (l : List ConvertedDocument) :
    ∀ (c i : Nat) (h : i < l.length),
      ((tocLoop c l).1)[i]? =
        some ⟨(l.get ⟨i, h⟩).title, c + ((l.map (fun x => x.pages)).take i).sum⟩ := by
  induction l with
  | nil => intro c i h; simp at h
  | cons a t ih =>
    intro c i h
    cases i with
    | zero => simp [tocLoop]
    | succ j =>
      have hj : j < t.length := Nat.lt_of_succ_lt_succ h
      simp only [tocLoop, List.getElem?_cons_succ, List.get, List.map_cons,
        List.take_succ_cons, List.sum_cons]
      rw [ih (c + a.pages) j hj]
      congr 2
      omega

lemma build_toc_pdf_getElem (infos : List ConvertedDocument) (i : Nat)
    (h : i < infos.length) :
    (build_toc_pdf infos)[i]? =
      some ⟨(infos.get ⟨i, h⟩).title,
        2 + ((infos.map (fun x => x.pages)).take i).sum⟩ := by
  have hlen : i < ((tocLoop 2 infos).1).length := by
    rw [tocLoop_fst_length]; exact h
  unfold build_toc_pdf
  rw [List.getElem?_append_left hlen, tocLoop_fst_get infos 2 i h]

lemma build_toc_pdf_getLast (infos : List ConvertedDocument) :
    (build_toc_pdf infos).getLast? =
      some ⟨"Sammanfattning", 2 + (infos.map (fun x => x.pages)).sum⟩ := by
  unfold build_toc_pdf
  rw [List.getLast?_concat, tocLoop_snd]

/-- Claim C1: build_toc_pdf initializes the running page counter to 2 and
emits the i-th document's TOC entry with start page 2 plus the sum of the
page counts of the preceding documents, the summary entry at 2 plus the
total page count, and consecutive entries satisfy
startPage (i+1) = startPage i + pages i. -/
theorem c1_toc_page_numbers (infos : List ConvertedDocument) :
    ((build_toc_pdf infos).getLast? =
      some ⟨"Sammanfattning", 2 + (infos.map (fun x => x.pages)).sum⟩)
    ∧ (∀ i, i < infos.length →
        ((build_toc_pdf infos)[i]?).map (fun e => e.startPage) =
          some (2 + ((infos.map (fun x => x.pages)).take i).sum))
    ∧ (∀ i, i + 1 < infos.length →
        ∃ s p, ((build_toc_pdf infos)[i]?).map (fun e => e.startPage) = some s
          ∧ (infos.map (fun x => x.pages))[i]? = some p
          ∧ ((build_toc_pdf infos)[i + 1]?).map (fun e => e.startPage) = some (s + p)) := by
  refine ⟨build_toc_pdf_getLast infos, ?_, ?_⟩
  · intro i h
    rw [build_toc_pdf_getElem infos i h]
    rfl
  · intro i h
    have h1 : i < infos.length := Nat.lt_of_succ_lt h
    have hm : i < (infos.map (fun x => x.pages)).length := by
      simpa using h1
    refine ⟨2 + ((infos.map (fun x => x.pages)).take i).sum,
      (infos.get ⟨i, h1⟩).pages, ?_, ?_, ?_⟩
    · rw [build_toc_pdf_getElem infos i h1]
      rfl
    · rw [List.getElem?_map, List.getElem?_eq_getElem h1, Option.map_some']
      rw [List.get_eq_getElem]
    · rw [build_toc_pdf_getElem infos (i + 1) h]
      have hs := List.sum_take_succ (infos.map (fun x => x.pages)) i hm
      have hg : (infos.map (fun x => x.pages)).get ⟨i, hm⟩ = (infos.get ⟨i, h1⟩).pages := by
        rw [List.get_eq_getElem, List.get_eq_getElem, List.getElem_map]
      rw [List.get_eq_getElem] at hg
      rw [hg] at hs
      simp only [Option.map_some']
      rw [hs]
      congr 1
      omega

/-- Witness for C1 at a concrete document list with page counts [3, 5]:
the second entry starts at page 2 + 3 = 5, the summary at 2 + 3 + 5 = 10,
and entry 1 = entry 0 + 3. -/
theorem c1_witness :
    ((build_toc_pdf [⟨"a.txt", "p", 3⟩, ⟨"b.png", "q", 5⟩]).getLast? =
      some ⟨"Sammanfattning", 10⟩)
    ∧ (((build_toc_pdf [⟨"a.txt", "p", 3⟩, ⟨"b.png", "q", 5⟩])[1]?).map
        (fun e => e.startPage) = some 5)
    ∧ (∃ s p,
        ((build_toc_pdf [⟨"a.txt", "p", 3⟩, ⟨"b.png", "q", 5⟩])[0]?).map
          (fun e => e.startPage) = some s
        ∧ ([⟨"a.txt", "p", 3⟩, ⟨"b.png", "q", 5⟩].map
            (fun x : ConvertedDocument => x.pages))[0]? = some p
        ∧ ((build_toc_pdf [⟨"a.txt", "p", 3⟩, ⟨"b.png", "q", 5⟩])[1]?).map
            (fun e => e.startPage) = some (s + p)) := by
  have h := c1_toc_page_numbers [⟨"a.txt", "p", 3⟩, ⟨"b.png", "q", 5⟩]
  refine ⟨by simpa using h.1, ?_, h.2.2 0 (by decide)⟩
  have h2 := h.2.1 1 (by decide)
  simpa using h2

/-- Counterexample to Claim C4: for the one-document list with title "a"
(page count 1), the first TOC line has visual width 83, not 80 (the code
pads only title plus dots to 80, excluding the two separating spaces and
the page number), and the final label is the literal "Sammanfattning",
not "Summary". -/
theorem c4_counterexample :
    ((tocStory [⟨"a", "p", 1⟩]).map String.length)[0]? = some 83
    ∧ (build_toc_pdf [⟨"a", "p", 1⟩]).getLast?.map (fun e => e.label)
        = some "Sammanfattning"
    ∧ "Sammanfattning" ≠ "Summary" := by
  refine ⟨by decide, by decide, by decide⟩

/-- Claim C4 (amended): each TOC line emitted by build_toc_pdf has the form
"<title> <dot-fill> <startPage>" where the dot-fill consists of 80 minus
the title's length dots (truncated at zero, so title and dots together
span max(titleLength, 80) characters; the two separating spaces and the
page number lie outside this span), and after all document lines one final
entry with the literal label "Sammanfattning" is emitted with the same
formatting at the final accumulated page-counter value. -/
theorem c4_toc_line_format (infos : List ConvertedDocument) :
    (∀ i, (h : i < infos.length) → (tocStory infos)[i]? =
        some (tocLine (infos.get ⟨i, h⟩).title
          (2 + ((infos.map (fun x => x.pages)).take i).sum)))
    ∧ (tocStory infos).getLast? =
        some (tocLine "Sammanfattning" (2 + (infos.map (fun x => x.pages)).sum))
    ∧ (∀ t p, tocLine t p = t ++ " " ++ tocDots t ++ " " ++ toString p)
    ∧ (∀ t : String, t.length + (tocDots t).length = max t.length 80) := by
  refine ⟨?_, ?_, fun t p => rfl, ?_⟩
  · intro i h
    have hlen : i < (build_toc_pdf infos).length := by
      unfold build_toc_pdf
      rw [List.length_append, tocLoop_fst_length]
      omega
    unfold tocStory
    rw [List.getElem?_map, build_toc_pdf_getElem infos i h]
    rfl
  · unfold tocStory
    rw [List.getLast?_map, build_toc_pdf_getLast infos]
    rfl
  · intro t
    have : (tocDots t).length = 80 - t.length := by
      show (List.replicate (80 - t.length) '.').length = 80 - t.length
      exact List.length_replicate _ _
    omega

/-- Witness for C4 (amended) at a concrete list: the single document line,
the summary line, and the dot-fill arithmetic at a short title. -/
theorem c4_witness :
    (tocStory [⟨"a", "p", 1⟩])[0]? = some (tocLine "a" 2)
    ∧ (tocStory [⟨"a", "p", 1⟩]).getLast? = some (tocLine "Sammanfattning" 3)
    ∧ ("a".length + (tocDots "a").length = max "a".length 80) := by
  have h := c4_toc_line_format [⟨"a", "p", 1⟩]
  refine ⟨?_, by simpa using h.2.1, h.2.2.2 "a"⟩
  have h0 := h.1 0 (by decide)
  simpa using h0

/- ### Lemmas about convert_all_to_pdfs -/

lemma convert_all_ok_eq (env : ConvEnv) (sf : String) :
    ∀ (files : List SourceFileEntry) (out : List ConvertedDocument),
      convert_all_to_pdfs env sf files = .ok out →
      out = files.filterMap (entryResult env sf) := by
  intro files
  induction files with
  | nil =>
    intro out h
    simp only [convert_all_to_pdfs, Except.ok.injEq] at h
    simp [← h]
  | cons e t ih =>
    intro out h
    simp only [convert_all_to_pdfs] at h
    split at h
    · exact Except.noConfusion h
    · rename_i heq
      rw [List.filterMap_cons]
      simp only [entryResult, heq]
      exact ih out h
    · rename_i d heq
      split at h
      · exact Except.noConfusion h
      · rename_i ds hr
        simp only [Except.ok.injEq] at h
        rw [List.filterMap_cons]
        simp only [entryResult, heq]
        rw [← h, ih ds hr]

lemma filterMap_map_sublist {α β γ : Type} (g : α → Option β) (f : α → Option γ)
    (m : β → γ) (H : ∀ a b, g a = some b → f a = some (m b)) :
    ∀ l : List α, List.Sublist ((l.filterMap g).map m) (l.filterMap f) := by
  intro l
  induction l with
  | nil => simp
  | cons a t ih =>
    cases hg : g a with
    | none =>
      rw [List.filterMap_cons, List.filterMap_cons]
      simp only [hg]
      cases hf : f a with
      | none => exact ih
      | some c => exact ih.cons c
    | some b =>
      have hf := H a b hg
      rw [List.filterMap_cons, List.filterMap_cons]
      simp only [hg, hf, List.map_cons]
      exact ih.cons₂ (m b)

lemma processEntry_title (env : ConvEnv) (sf : String) (e : SourceFileEntry)
    (d : ConvertedDocument) (h : processEntry env sf e = .ok (some d)) :
    ∃ fn, e.filnamn = some fn ∧ d.title = pathName (pathJoin sf fn) := by
  cases hfn : e.filnamn with
  | none =>
    rw [processEntry.eq_def, hfn] at h
    exact Except.noConfusion h
  | some fn =>
    refine ⟨fn, rfl, ?_⟩
    rw [processEntry.eq_def, hfn] at h
    simp only [] at h
    split at h
    · simp at h
    · split at h
      · simp at h
      · split at h
        · exact Except.noConfusion h
        · simp at h
        · split at h
          · simp at h
          · split at h
            · exact Except.noConfusion h
            · simp only [Except.ok.injEq, Option.some.injEq] at h
              rw [← h]

/-- Decidable equality on Except results, for evaluating the pipeline at
concrete inputs. -/
instance exceptDecEq {ε α : Type} [DecidableEq ε] [DecidableEq α] :
    DecidableEq (Except ε α) := fun x y =>
  match x, y with
  | .error a, .error b =>
    match decEq a b with
    | isTrue h => isTrue (h ▸ rfl)
    | isFalse h => isFalse (fun hc => h (Except.error.inj hc))
  | .ok a, .ok b =>
    match decEq a b with
    | isTrue h => isTrue (h ▸ rfl)
    | isFalse h => isFalse (fun hc => h (Except.ok.inj hc))
  | .error _, .ok _ => isFalse (fun hc => Except.noConfusion hc)
  | .ok _, .error _ => isFalse (fun hc => Except.noConfusion hc)

/-- Claim C2: whenever convert_all_to_pdfs completes without raising, its
output is exactly the in-order filter-map of the per-entry step over the
ordered input list (each successfully converted entry contributes exactly
one element, in input order, skipped entries are simply absent), and hence
the output titles form a subsequence, in the same relative order, of the
input entries' filenames. -/
theorem c2_order_preservation (env : ConvEnv) (sf : String)
    (files : List SourceFileEntry) (out : List ConvertedDocument)
    (h : convert_all_to_pdfs env sf files = .ok out) :
    out = files.filterMap (entryResult env sf)
    ∧ List.Sublist (out.map (fun d => d.title))
        (files.filterMap (fun e => e.filnamn.map (fun fn => pathName (pathJoin sf fn)))) := by
  have h1 := convert_all_ok_eq env sf files out h
  refine ⟨h1, ?_⟩
  rw [h1]
  apply filterMap_map_sublist
  intro a b hg
  have hb : processEntry env sf a = .ok (some b) := by
    unfold entryResult at hg
    cases hp : processEntry env sf a with
    | error err => rw [hp] at hg; exact Option.noConfusion hg
    | ok o =>
      rw [hp] at hg
      simp only [] at hg
      rw [hg]
  obtain ⟨fn, hfn, ht⟩ := processEntry_title env sf a b hb
  rw [hfn]
  simp [ht]

/-- Environment for the C2 witness: "src/missing.txt" is absent, every
other conversion succeeds with a one-page result. -/
def c2WitnessEnv : ConvEnv where
  srcExists := fun p => p != "src/missing.txt"
  docxOk := fun _ => true
  txtErr := fun _ => none
  imageErr := fun _ => none
  copyErr := fun _ => none
  outExists := fun _ => true
  pageCountRes := fun _ => .ok 1

/-- Input list for the C2 witness: a convertible .txt, a missing file, and
a convertible .pdf. -/
def c2WitnessFiles : List SourceFileEntry :=
  [⟨some "a.txt", some "text", some "s1"⟩,
   ⟨some "missing.txt", some "text", some "s2"⟩,
   ⟨some "b.pdf", some "text", some "s3"⟩]

/-- Witness for C2: with the middle file missing the output is the two
surviving documents in input order, and their titles are a subsequence of
the input filenames. -/
theorem c2_witness :
    ([⟨"a.txt", "src/converted/a.pdf", 1⟩,
      ⟨"b.pdf", "src/converted/b.pdf", 1⟩] : List ConvertedDocument)
        = c2WitnessFiles.filterMap (entryResult c2WitnessEnv "src")
    ∧ List.Sublist
        (([⟨"a.txt", "src/converted/a.pdf", 1⟩,
           ⟨"b.pdf", "src/converted/b.pdf", 1⟩] : List ConvertedDocument).map
          (fun d => d.title))
        (c2WitnessFiles.filterMap
          (fun e => e.filnamn.map (fun fn => pathName (pathJoin "src" fn)))) :=
  c2_order_preservation c2WitnessEnv "src" c2WitnessFiles
    [⟨"a.txt", "src/converted/a.pdf", 1⟩, ⟨"b.pdf", "src/converted/b.pdf", 1⟩]
    (by decide)

/-- Environment for the C3 counterexample: every file exists, but the txt
converter raises on whatever it is given. -/
def c3BadEnv : ConvEnv where
  srcExists := fun _ => true
  docxOk := fun _ => true
  txtErr := fun _ => some (.convError "boom")
  imageErr := fun _ => none
  copyErr := fun _ => none
  outExists := fun _ => true
  pageCountRes := fun _ => .ok 1

/-- Counterexample to Claim C3: an exception raised inside the txt format
converter for the first entry is NOT caught by convert_all_to_pdfs — the
whole loop aborts with that exception and the second (perfectly fine)
entry is never processed, contradicting the claim that every per-file
converter failure is converted into a skip. -/
theorem c3_counterexample :
    convert_all_to_pdfs c3BadEnv "src"
      [⟨some "a.txt", some "text", some "s1"⟩,
       ⟨some "b.pdf", some "text", some "s2"⟩]
      = .error (.convError "boom") := by decide

/-- Claim C3 (amended): missing source files, unsupported extensions and
DOCX conversions in which both converters fail (the docx converter returns
None rather than raising) are skipped with a log line and the loop
continues with the remaining entries; but an exception raised inside the
txt (or image, or pdf-copy) converter — and any error of processEntry,
including a page-count read failure — is not caught: it propagates out of
convert_all_to_pdfs and aborts the pipeline. -/
theorem c3_error_handling (env : ConvEnv) (sf : String)
    (e : SourceFileEntry) (rest : List SourceFileEntry) (fn : String)
    (hfn : e.filnamn = some fn) :
    (env.srcExists (pathJoin sf fn) = false →
      convert_all_to_pdfs env sf (e :: rest) = convert_all_to_pdfs env sf rest)
    ∧ (env.srcExists (pathJoin sf fn) = true →
        registryGet (lowerString (pathSuffix (pathJoin sf fn))) = none →
        convert_all_to_pdfs env sf (e :: rest) = convert_all_to_pdfs env sf rest)
    ∧ (env.srcExists (pathJoin sf fn) = true →
        registryGet (lowerString (pathSuffix (pathJoin sf fn))) = some .docx →
        env.docxOk (pathJoin sf fn) = false →
        convert_all_to_pdfs env sf (e :: rest) = convert_all_to_pdfs env sf rest)
    ∧ (env.srcExists (pathJoin sf fn) = true →
        registryGet (lowerString (pathSuffix (pathJoin sf fn))) = some .txt →
        ∀ err, env.txtErr (pathJoin sf fn) = some err →
        convert_all_to_pdfs env sf (e :: rest) = .error err)
    ∧ (∀ err, processEntry env sf e = .error err →
        convert_all_to_pdfs env sf (e :: rest) = .error err) := by
  refine ⟨?_, ?_, ?_, ?_, ?_⟩
  · intro h1
    have hp : processEntry env sf e = .ok none := by
      simp [processEntry, hfn, h1]
    simp [convert_all_to_pdfs, hp]
  · intro h1 h2
    have hp : processEntry env sf e = .ok none := by
      simp [processEntry, hfn, h1, h2]
    simp [convert_all_to_pdfs, hp]
  · intro h1 h2 h3
    have hp : processEntry env sf e = .ok none := by
      simp [processEntry, converterOutput, hfn, h1, h2, h3]
    simp [convert_all_to_pdfs, hp]
  · intro h1 h2 err h3
    have hp : processEntry env sf e = .error err := by
      simp [processEntry, converterOutput, hfn, h1, h2, h3]
    simp [convert_all_to_pdfs, hp]
  · intro err hp
    simp [convert_all_to_pdfs, hp]

/-- Environment for the C3 witness: no source file exists. -/
def c3SkipEnv : ConvEnv where
  srcExists := fun _ => false
  docxOk := fun _ => true
  txtErr := fun _ => none
  imageErr := fun _ => none
  copyErr := fun _ => none
  outExists := fun _ => true
  pageCountRes := fun _ => .ok 1

/-- Witness for C3 (amended) at a concrete input: a missing file is
skipped and the loop continues to the empty tail, and a raising txt
converter aborts with that error. -/
theorem c3_witness :
    convert_all_to_pdfs c3SkipEnv "src" [⟨some "a.txt", none, none⟩] = .ok []
    ∧ convert_all_to_pdfs c3BadEnv "src" [⟨some "a.txt", none, none⟩]
        = .error (.convError "boom") := by
  constructor
  · have h := (c3_error_handling c3SkipEnv "src" ⟨some "a.txt", none, none⟩ []
      "a.txt" rfl).1 (by decide)
    exact h.trans rfl
  · exact (c3_error_handling c3BadEnv "src" ⟨some "a.txt", none, none⟩ []
      "a.txt" rfl).2.2.2.1 (by decide) (by decide) (.convError "boom") (by decide)

/-- Any entry whose "filnamn" key is absent makes the whole loop raise. -/
lemma convert_all_err_of_mem_none (env : ConvEnv) (sf : String) :
    ∀ (files : List SourceFileEntry) (e : SourceFileEntry),
      e ∈ files → e.filnamn = none →
      ∃ err, convert_all_to_pdfs env sf files = .error err := by
  intro files
  induction files with
  | nil => intro e he hn; exact absurd he (List.not_mem_nil e)
  | cons a t ih =>
    intro e he hn
    rcases List.mem_cons.mp he with rfl | hm
    · refine ⟨.typeError, ?_⟩
      have hp : processEntry env sf e = .error .typeError := by
        simp [processEntry, hn]
      simp [convert_all_to_pdfs, hp]
    · cases hp : processEntry env sf a with
      | error err => exact ⟨err, by simp [convert_all_to_pdfs, hp]⟩
      | ok o =>
        obtain ⟨err, ht⟩ := ih e hm hn
        cases o with
        | none => exact ⟨err, by simp [convert_all_to_pdfs, hp, ht]⟩
        | some d => exact ⟨err, by simp [convert_all_to_pdfs, hp, ht]⟩

/-- Claim C10: an entry without a "filnamn" string makes the per-entry step
raise a TypeError while forming the source path (instead of skipping), and
consequently convert_all_to_pdfs on any list containing such an entry
raises instead of returning an output sequence. -/
theorem c10_missing_filnamn (env : ConvEnv) (sf : String)
    (files : List SourceFileEntry) (e : SourceFileEntry)
    (he : e ∈ files) (hn : e.filnamn = none) :
    processEntry env sf e = .error .typeError
    ∧ ∃ err, convert_all_to_pdfs env sf files = .error err :=
  ⟨by simp [processEntry, hn], convert_all_err_of_mem_none env sf files e he hn⟩

/-- Environment for the C10 witness: everything succeeds. -/
def c10Env : ConvEnv where
  srcExists := fun _ => true
  docxOk := fun _ => true
  txtErr := fun _ => none
  imageErr := fun _ => none
  copyErr := fun _ => none
  outExists := fun _ => true
  pageCountRes := fun _ => .ok 1

/-- Witness for C10: a list whose second entry lacks "filnamn" makes the
loop raise even though the first entry converts fine. -/
theorem c10_witness :
    processEntry c10Env "src" ⟨none, none, none⟩ = .error .typeError
    ∧ ∃ err, convert_all_to_pdfs c10Env "src"
        [⟨some "a.txt", none, none⟩, ⟨none, none, none⟩] = .error err :=
  c10_missing_filnamn c10Env "src"
    [⟨some "a.txt", none, none⟩, ⟨none, none, none⟩]
    ⟨none, none, none⟩ (by decide) rfl

/-- Claim C5: on a fault-free run, injecting a title into a nonempty PDF
overlays the title onto page 1 only — page 1's original content stays
beneath the overlay layer — keeps the page count, and carries every later
page over unchanged. -/
theorem c5_title_injection (env : InjectEnv) (pdfPath title : String)
    (pdf : List PdfPage) (first : PdfPage) (rest : List PdfPage)
    (hr : env.readErr = none) (hw : env.writeErr = none)
    (hp : pdf = first :: rest) :
    inject_pdf_title env pdfPath pdf title
      = (pdfPath, mergePage first (titleOverlay title) :: rest)
    ∧ (inject_pdf_title env pdfPath pdf title).2.length = pdf.length
    ∧ (∀ i, 1 ≤ i → ((inject_pdf_title env pdfPath pdf title).2)[i]? = pdf[i]?)
    ∧ (mergePage first (titleOverlay title)).layers
        = first.layers ++ (titleOverlay title).layers := by
  subst hp
  have hmain : inject_pdf_title env pdfPath (first :: rest) title
      = (pdfPath, mergePage first (titleOverlay title) :: rest) := by
    simp [inject_pdf_title, hr, hw]
  refine ⟨hmain, ?_, ?_, rfl⟩
  · rw [hmain]; simp
  · intro i hi
    rw [hmain]
    cases i with
    | zero => exact absurd hi (by omega)
    | succ j => simp

/-- Witness for C5: a concrete two-page PDF gains the overlay on page 1 and
keeps page 2. -/
theorem c5_witness :
    inject_pdf_title ⟨none, none⟩ "f.pdf" [⟨["c1"]⟩, ⟨["c2"]⟩] "t"
      = ("f.pdf", [⟨["c1", "Helvetica-Bold 14 centred near top: t"]⟩, ⟨["c2"]⟩])
    ∧ (inject_pdf_title ⟨none, none⟩ "f.pdf" [⟨["c1"]⟩, ⟨["c2"]⟩] "t").2.length = 2 := by
  have h := c5_title_injection ⟨none, none⟩ "f.pdf" "t" [⟨["c1"]⟩, ⟨["c2"]⟩]
    ⟨["c1"]⟩ [⟨["c2"]⟩] rfl rfl rfl
  refine ⟨?_, ?_⟩
  · rw [h.1]; rfl
  · rw [h.2.1]; rfl

/-- Claim C9: if reading the PDF raises, the PDF has no first page, or
writing the result raises, inject_pdf_title catches the exception and
returns the original path with the file content untouched, so the caller
keeps the un-annotated document instead of losing it. -/
theorem c9_inject_failure (env : InjectEnv) (pdfPath title : String)
    (pdf : List PdfPage)
    (h : env.readErr.isSome = true ∨ pdf = [] ∨ env.writeErr.isSome = true) :
    inject_pdf_title env pdfPath pdf title = (pdfPath, pdf) := by
  unfold inject_pdf_title
  cases hre : env.readErr with
  | some e => rfl
  | none =>
    cases pdf with
    | nil => rfl
    | cons first rest =>
      cases hwe : env.writeErr with
      | some e => rfl
      | none =>
        rcases h with h | h | h
        · rw [hre] at h; exact absurd h (by simp)
        · exact absurd h (by simp)
        · rw [hwe] at h; exact absurd h (by simp)

/-- Witness for C9: a reading failure returns the original path and bytes. -/
theorem c9_witness :
    inject_pdf_title ⟨some (.readError "bad"), none⟩ "f.pdf" [⟨["c1"]⟩] "t"
      = ("f.pdf", [⟨["c1"]⟩]) :=
  c9_inject_failure ⟨some (.readError "bad"), none⟩ "f.pdf" "t" [⟨["c1"]⟩]
    (Or.inl (by decide))

/-- The pages of a document list under a page-assignment, concatenated in
list order. -/
def concatPagesOf (docPages : ConvertedDocument → List PdfPage) :
    List ConvertedDocument → List PdfPage
  | [] => []
  | d :: ds => docPages d ++ concatPagesOf docPages ds

lemma mergeAppendAll_docs (env : MergeEnv)
    (docPages : ConvertedDocument → List PdfPage) :
    ∀ (infos : List ConvertedDocument),
      (∀ d ∈ infos, env.readPdf d.path = .ok (docPages d)) →
      mergeAppendAll env (infos.map (fun i => i.path))
        = .ok (concatPagesOf docPages infos) := by
  intro infos
  induction infos with
  | nil => intro h; rfl
  | cons d ds ih =>
    intro h
    have hd := h d (List.mem_cons_self d ds)
    have hds := ih (fun x hx => h x (List.mem_cons_of_mem d hx))
    simp only [List.map_cons, mergeAppendAll, hd, hds, concatPagesOf]

lemma mergeAppendAll_cons (env : MergeEnv) (p : String) (ps : List String) :
    mergeAppendAll env (p :: ps)
      = match env.readPdf p with
        | Except.error e => Except.error e
        | Except.ok pages =>
          match mergeAppendAll env ps with
          | Except.error e => Except.error e
          | Except.ok rest => Except.ok (pages ++ rest) := rfl

lemma mergeAppendAll_append (env : MergeEnv) :
    ∀ (l1 l2 : List String) (r1 r2 : List PdfPage),
      mergeAppendAll env l1 = .ok r1 → mergeAppendAll env l2 = .ok r2 →
      mergeAppendAll env (l1 ++ l2) = .ok (r1 ++ r2) := by
  intro l1
  induction l1 with
  | nil =>
    intro l2 r1 r2 h1 h2
    simp only [mergeAppendAll, Except.ok.injEq] at h1
    simpa [← h1] using h2
  | cons p ps ih =>
    intro l2 r1 r2 h1 h2
    rw [mergeAppendAll_cons] at h1
    cases hp : env.readPdf p with
    | error e => rw [hp] at h1; exact Except.noConfusion h1
    | ok pages =>
      rw [hp] at h1
      simp only [] at h1
      cases hr : mergeAppendAll env ps with
      | error e => rw [hr] at h1; exact Except.noConfusion h1
      | ok rest =>
        rw [hr] at h1
        simp only [Except.ok.injEq] at h1
        have hrec := ih l2 rest r2 hr h2
        rw [List.cons_append, mergeAppendAll_cons, hp, hrec, ← h1]
        simp [List.append_assoc]

/-- Claim C6: merge_pdfs_with_toc concatenates, in strict order, the TOC
pages, then each converted document's pages in the orchestrator's output
order, then the summary pages; and a failure while reading any input (here:
the TOC) is not caught — it propagates to the caller. -/
theorem c6_merge_order (env : MergeEnv) (tocPdf summaryPdf : String)
    (infos : List ConvertedDocument) (tocPages sumPages : List PdfPage)
    (docPages : ConvertedDocument → List PdfPage) :
    (env.readPdf tocPdf = .ok tocPages →
      (∀ d ∈ infos, env.readPdf d.path = .ok (docPages d)) →
      env.readPdf summaryPdf = .ok sumPages →
      env.writeErr = none →
      merge_pdfs_with_toc env tocPdf infos summaryPdf
        = .ok (tocPages ++ (concatPagesOf docPages infos ++ sumPages)))
    ∧ (∀ err, env.readPdf tocPdf = .error err →
        merge_pdfs_with_toc env tocPdf infos summaryPdf = .error err) := by
  constructor
  · intro htoc hdocs hsum hw
    have hmid := mergeAppendAll_docs env docPages infos hdocs
    have hsum1 : mergeAppendAll env [summaryPdf] = .ok sumPages := by
      simp [mergeAppendAll, hsum]
    have happ := mergeAppendAll_append env _ _ _ _ hmid hsum1
    unfold merge_pdfs_with_toc
    simp only [mergeAppendAll, htoc, happ, hw]
  · intro err htoc
    unfold merge_pdfs_with_toc
    simp [mergeAppendAll, htoc]

/-- Environment for the C6 witness: each path reads back one recognizable
page; writing succeeds. -/
def c6Env : MergeEnv where
  readPdf := fun p =>
    if p = "toc.pdf" then .ok [⟨["toc"]⟩]
    else if p = "sum.pdf" then .ok [⟨["sum"]⟩]
    else .ok [⟨["doc:" ++ p]⟩]
  writeErr := none

/-- Environment for the C6 witness's failure half: every read raises. -/
def c6ErrEnv : MergeEnv where
  readPdf := fun _ => .error (.readError "io")
  writeErr := none

/-- Witness for C6: a one-document merge yields TOC page, document page,
summary page in that order, and a raising read propagates. -/
theorem c6_witness :
    merge_pdfs_with_toc c6Env "toc.pdf" [⟨"a", "pa", 1⟩] "sum.pdf"
      = .ok ([⟨["toc"]⟩] ++
          (concatPagesOf (fun d => [⟨["doc:" ++ d.path]⟩]) [⟨"a", "pa", 1⟩]
            ++ [⟨["sum"]⟩]))
    ∧ merge_pdfs_with_toc c6ErrEnv "toc.pdf" [] "sum.pdf"
        = .error (.readError "io") := by
  constructor
  · exact (c6_merge_order c6Env "toc.pdf" "sum.pdf" [⟨"a", "pa", 1⟩]
      [⟨["toc"]⟩] [⟨["sum"]⟩] (fun d => [⟨["doc:" ++ d.path]⟩])).1
      (by decide) (by decide) (by decide) rfl
  · exact (c6_merge_order c6ErrEnv "toc.pdf" "sum.pdf" [] [] []
      (fun _ => [])).2 (.readError "io") (by decide)

/- ### Image placement lemmas -/

lemma placement_scale (iw ih : ℚ) :
    (image_to_pdf_placement iw ih).scale
      = min (min ((A4w - 100) / iw) ((A4h - 50 - 100) / ih)) 1 := rfl

lemma placement_w (iw ih : ℚ) :
    (image_to_pdf_placement iw ih).w
      = iw * (image_to_pdf_placement iw ih).scale := rfl

lemma placement_h (iw ih : ℚ) :
    (image_to_pdf_placement iw ih).h
      = ih * (image_to_pdf_placement iw ih).scale := rfl

lemma placement_y (iw ih : ℚ) :
    (image_to_pdf_placement iw ih).y
      = (A4h - (image_to_pdf_placement iw ih).h) / 2 - 20 := rfl

/-- Counterexample to Claim C7: at a concrete 100 x 100 image the vertical
center of the drawn image lies strictly BELOW the page's vertical center
(reportlab's y axis points up and the code subtracts 20 from the centered
y coordinate), so the image is offset slightly downward, not "upward from
center" as the claim states. -/
theorem c7_counterexample :
    (image_to_pdf_placement 100 100).y + (image_to_pdf_placement 100 100).h / 2
      < A4h / 2 := by
  rw [placement_y]
  have he : ∀ H : ℚ, (A4h - H) / 2 - 20 + H / 2 = A4h / 2 - 20 := by
    intro H; ring
  rw [he]
  linarith

/-- Claim C7 (amended): image_to_pdf draws the image with scale factor
exactly min(maxWidth/imgWidth, maxHeight/imgHeight, 1) (maxWidth =
pageWidth - 100, maxHeight = pageHeight - 50 - 100), so the image fits
within the margins, keeps its aspect ratio, is never upscaled, and is
centered horizontally — with its vertical center exactly 20 points BELOW
the page's vertical center (a slight downward offset). -/
theorem c7_image_scaling (iw ih : ℚ) (hiw : 0 < iw) (hih : 0 < ih) :
    (image_to_pdf_placement iw ih).scale
      = min (min ((A4w - 100) / iw) ((A4h - 50 - 100) / ih)) 1
    ∧ (image_to_pdf_placement iw ih).scale ≤ 1
    ∧ (image_to_pdf_placement iw ih).w ≤ A4w - 100
    ∧ (image_to_pdf_placement iw ih).h ≤ A4h - 50 - 100
    ∧ (image_to_pdf_placement iw ih).w * ih
        = (image_to_pdf_placement iw ih).h * iw
    ∧ (image_to_pdf_placement iw ih).x
        = (A4w - (image_to_pdf_placement iw ih).w) / 2
    ∧ (image_to_pdf_placement iw ih).y
        + (image_to_pdf_placement iw ih).h / 2 = A4h / 2 - 20 := by
  have hs := placement_scale iw ih
  refine ⟨hs, ?_, ?_, ?_, ?_, rfl, ?_⟩
  · rw [hs]; exact min_le_right _ _
  · rw [placement_w, hs]
    have h1 : min (min ((A4w - 100) / iw) ((A4h - 50 - 100) / ih)) 1
        ≤ (A4w - 100) / iw :=
      le_trans (min_le_left _ _) (min_le_left _ _)
    calc iw * min (min ((A4w - 100) / iw) ((A4h - 50 - 100) / ih)) 1
        ≤ iw * ((A4w - 100) / iw) :=
          mul_le_mul_of_nonneg_left h1 (le_of_lt hiw)
      _ = A4w - 100 := by
          rw [mul_comm]; exact div_mul_cancel₀ _ (ne_of_gt hiw)
  · rw [placement_h, hs]
    have h1 : min (min ((A4w - 100) / iw) ((A4h - 50 - 100) / ih)) 1
        ≤ (A4h - 50 - 100) / ih :=
      le_trans (min_le_left _ _) (min_le_right _ _)
    calc ih * min (min ((A4w - 100) / iw) ((A4h - 50 - 100) / ih)) 1
        ≤ ih * ((A4h - 50 - 100) / ih) :=
          mul_le_mul_of_nonneg_left h1 (le_of_lt hih)
      _ = A4h - 50 - 100 := by
          rw [mul_comm]; exact div_mul_cancel₀ _ (ne_of_gt hih)
  · rw [placement_w, placement_h]; ring
  · rw [placement_y]
    have he : ∀ H : ℚ, (A4h - H) / 2 - 20 + H / 2 = A4h / 2 - 20 := by
      intro H; ring
    exact he _

/-- Witness for C7 (amended) at a concrete 100 x 100 image. -/
theorem c7_witness :
    (image_to_pdf_placement 100 100).scale ≤ 1
    ∧ (image_to_pdf_placement 100 100).w ≤ A4w - 100
    ∧ (image_to_pdf_placement 100 100).y
        + (image_to_pdf_placement 100 100).h / 2 = A4h / 2 - 20 := by
  have h := c7_image_scaling 100 100 (by norm_num) (by norm_num)
  exact ⟨h.2.1, h.2.2.1, h.2.2.2.2.2.2⟩

/-- Claim C8: copying a source .pdf puts a byte-identical copy at
`outputFolder / name`: reading the destination back yields exactly the
source's bytes. -/
theorem c8_copy_roundtrip (fs : FileSys) (pdfPath outputFolder : String)
    (bytes : List Nat) (h : fs pdfPath = some bytes) :
    ∃ fs2, copy_pdf fs pdfPath outputFolder
        = .ok (pathJoin outputFolder (pathName pdfPath), fs2)
      ∧ fs2 (pathJoin outputFolder (pathName pdfPath)) = some bytes := by
  refine ⟨fun p => if p = pathJoin outputFolder (pathName pdfPath)
    then some bytes else fs p, ?_, ?_⟩
  · simp only [copy_pdf, h]
  · simp

/-- A concrete filesystem holding one PDF file. -/
def c8fs : FileSys := fun p =>
  if p = "docs/r.pdf" then some [37, 80, 68, 70] else none

/-- Witness for C8: copying "docs/r.pdf" into "out" and reading the copy
back yields the original bytes. -/
theorem c8_witness :
    ∃ fs2, copy_pdf c8fs "docs/r.pdf" "out"
        = .ok (pathJoin "out" (pathName "docs/r.pdf"), fs2)
      ∧ fs2 (pathJoin "out" (pathName "docs/r.pdf")) = some [37, 80, 68, 70] :=
  c8_copy_roundtrip c8fs "docs/r.pdf" "out" [37, 80, 68, 70] (by decide)
